import Mathlib

/-!
Verification of the VegeHub device-communication library (client for a
networked soil/agriculture sensor-and-actuator hub).  The library's core
modules `vegehub/vegehub.py` and `vegehub/helpers.py` are not present in the
source tree (only their unit tests and callers are), so the definitions below
are modelled from the natural-language specification, with concrete constants
pinned by the repository's own unit tests where the specification leaves them
open.
-/

namespace VegeHub

/-- Error taxonomy of the library: `connection` is the `ConnectionError`-kind
TransportExhausted error (every retry attempt failed; carries the last
failure's status/reason), `dataShape` is the application-level error raised
when a 2xx response is missing a required key. -/
inductive VegeError where
  | connection (reason : String)
  | dataShape (key : String)
deriving DecidableEq, Repr

/-- Outcome of a single HTTP attempt against the device: a 2xx response with a
parsed body, or one uniform failure condition (transport-level failure or a
non-2xx status) carrying its status/reason. -/
inductive AttemptOutcome where
  | success (body : String)
  | failure (reason : String)
deriving DecidableEq, Repr

/-- Result of running the retrying request executor: how many attempts it
made, and either the parsed body or the surfaced error. -/
structure RunResult where
  attempts : Nat
  result : Except VegeError String
deriving Repr

/-- Modelled from the spec: the attempt loop of the Retrying HTTP Request
Executor (`vegehub/vegehub.py`, absent from src/).  `transport i` is the
outcome of the i-th attempt; the second argument is the remaining budget.
On success it stops; on failure it retries while budget remains, and after
the last attempt fails it surfaces the `connection`-kind error carrying that
last failure's reason. -/
def retryLoop (transport : Nat → AttemptOutcome) (idx : Nat) : Nat → RunResult
  | 0 => ⟨0, Except.error (VegeError.connection "")⟩
  | Nat.succ n =>
    match transport idx with
    | AttemptOutcome.success b => ⟨1, Except.ok b⟩
    | AttemptOutcome.failure r =>
      if n = 0 then ⟨1, Except.error (VegeError.connection r)⟩
      else
        let rest := retryLoop transport (idx + 1) n
        ⟨rest.attempts + 1, rest.result⟩

/-- Modelled from the spec: the Retrying HTTP Request Executor
(`vegehub/vegehub.py`, absent from src/).  The budget counts retries beyond
the first attempt, so a call with a retry budget of `retries` makes up to
`retries + 1` attempts — as the repository's own tests pin it:
`src/tests/test_vegehub.py::test_set_actuator_fail` and
`::test_actuator_states_fail` mock the responses 400, 400, 200 and need a
first retries=1 call to consume both 400s (two attempts) so that the next
retries=1 call reaches the 200.  A retries=0 call therefore still makes
exactly one attempt, never zero. -/
def executeWithRetry (transport : Nat → AttemptOutcome) (retries : Nat) : RunResult :=
  retryLoop transport 0 (retries + 1)

theorem retryLoop_attempts_one (transport : Nat → AttemptOutcome) (idx : Nat) :
    (retryLoop transport idx 1).attempts = 1 := by
  cases h : transport idx <;> simp [retryLoop, h]

theorem retryLoop_attempts_two (transport : Nat → AttemptOutcome) (idx : Nat) :
    (retryLoop transport idx 2).attempts = 1 ∨ (retryLoop transport idx 2).attempts = 2 := by
  cases h : transport idx with
  | success b => exact Or.inl (by simp [retryLoop, h])
  | failure r =>
    refine Or.inr ?_
    cases h2 : transport (idx + 1) <;> simp [retryLoop, h, h2]

/-- Claim C1, amended: against a transport that fails the first two attempts
and would succeed on the third, a call through the retrying executor with
retries=1 makes exactly two attempts (the executor makes retries+1 attempts)
and surfaces the ConnectionError-kind TransportExhausted error carrying the
last failure, while an identical call with retries=3 succeeds (on its third
attempt); a caller supplying retries=0 always gets exactly one attempt, and
a caller supplying retries=1 gets one or two attempts — never zero. -/
theorem C1_retry_budget_plus_one (t : Nat → AttemptOutcome) (e0 e1 b : String)
    (h0 : t 0 = AttemptOutcome.failure e0)
    (h1 : t 1 = AttemptOutcome.failure e1)
    (h2 : t 2 = AttemptOutcome.success b) :
    (executeWithRetry t 1).attempts = 2 ∧
    (executeWithRetry t 1).result = Except.error (VegeError.connection e1) ∧
    (executeWithRetry t 3).attempts = 3 ∧
    (executeWithRetry t 3).result = Except.ok b ∧
    (∀ t2 : Nat → AttemptOutcome,
      (executeWithRetry t2 0).attempts = 1 ∧
      ((executeWithRetry t2 1).attempts = 1 ∨ (executeWithRetry t2 1).attempts = 2)) := by
  refine ⟨?_, ?_, ?_, ?_, ?_⟩
  · simp [executeWithRetry, retryLoop, h0, h1]
  · simp [executeWithRetry, retryLoop, h0, h1]
  · simp [executeWithRetry, retryLoop, h0, h1, h2]
  · simp [executeWithRetry, retryLoop, h0, h1, h2]
  · intro t2
    exact ⟨by simpa [executeWithRetry] using retryLoop_attempts_one t2 0,
      by simpa [executeWithRetry] using retryLoop_attempts_two t2 0⟩

/-- One endpoint object of the new (endpoint-array) config schema: a numeric
id unique within the sequence, a name, a type, an enabled flag, a connection
method, and a nested endpoint-type-specific config mapping (modelled as an
association list of string keys to string values). -/
structure Endpoint where
  id : Nat
  name : String
  etype : String
  enabled : Bool
  connection_method : String
  config : List (String × String)
deriving DecidableEq, Repr

/-- The `hub` mapping of the old (flat) config schema: `server_url` and
`server_type` plus untouched other sub-keys. -/
structure HubSection where
  server_url : Option String
  server_type : Option Nat
  extra : List (String × String)
deriving DecidableEq, Repr

/-- A config blob fetched from / written to the device.  `endpoints = some l`
models an `endpoints` key holding a list (the new schema shape); `none`
models the key being absent or not a list.  `api_key` and `hub` are the
old-schema top-level keys; `extra` holds the remaining top-level keys, which
reconciliation must pass through untouched. -/
structure ConfigBlob where
  endpoints : Option (List Endpoint)
  api_key : Option String
  hub : Option HubSection
  extra : List (String × String)
deriving DecidableEq, Repr

/-- The reserved upstream-listener name searched for in the endpoint list. -/
def reservedEndpointName : String := "HomeAssistant"

/-- Modelled from the spec: the full endpoint object the reconciler builds
(fixed reserved type `custom`, `enabled = true`, connection method `wifi`,
the given apiKey, the fixed `data_format` marker `json`, and
`url = serverUrl`); field values pinned by
`src/tests/test_vegehub.py::test_modify_device_config_with_endpoints`. -/
def mkHaEndpoint (eid : Nat) (apiKey serverUrl : String) : Endpoint :=
  { id := eid
    name := reservedEndpointName
    etype := "custom"
    enabled := true
    connection_method := "wifi"
    config := [("api_key", apiKey), ("data_format", "json"), ("url", serverUrl)] }

/-- Whether an endpoint carries the reserved upstream-listener name. -/
def isReserved (e : Endpoint) : Bool := e.name == reservedEndpointName

/-- Whether the endpoint list already contains the reserved-name endpoint. -/
def hasReserved (eps : List Endpoint) : Bool := eps.any isReserved

/-- Overwrite a matching endpoint in place, preserving its id; leave every
other endpoint unmodified. -/
def overwriteReserved (apiKey serverUrl : String) (e : Endpoint) : Endpoint :=
  if isReserved e then mkHaEndpoint e.id apiKey serverUrl else e

/-- Largest id among the existing endpoints (0 when none exist). -/
def maxEndpointId (eps : List Endpoint) : Nat :=
  eps.foldl (fun m e => max m e.id) 0

/-- The next unique integer id: `max (existing ids) + 1`, or 1 if none
exist. -/
def nextEndpointId (eps : List Endpoint) : Nat := maxEndpointId eps + 1

/-- Modelled from the spec: the new-schema branch of the config reconciler
(`vegehub/vegehub.py`, absent from src/): either overwrite the existing
reserved-name endpoint in place (preserving its id) or append a freshly
built one, passing all other endpoints through unmodified, in original
order. -/
def installHaEndpoint (eps : List Endpoint) (apiKey serverUrl : String) : List Endpoint :=
  if hasReserved eps then eps.map (overwriteReserved apiKey serverUrl)
  else eps ++ [mkHaEndpoint (nextEndpointId eps) apiKey serverUrl]

/-- Modelled from the spec: `VegeHub._modify_device_config`
(`vegehub/vegehub.py`, absent from src/).  Structural schema classification:
an `endpoints` key holding a list means new schema (the endpoint install is
applied); otherwise both `api_key` and `hub` must be present in the original
blob for the old-schema top-level mutation (`api_key`, `hub.server_url`,
`hub.server_type = 3`); a blob matching neither shape, or a missing blob,
yields no mutated blob. -/
def modify_device_config (blob : Option ConfigBlob) (apiKey serverUrl : String) :
    Option ConfigBlob :=
  match blob with
  | none => none
  | some cfg =>
    match cfg.endpoints with
    | some eps => some { cfg with endpoints := some (installHaEndpoint eps apiKey serverUrl) }
    | none =>
      match cfg.api_key, cfg.hub with
      | some _, some h =>
        some { cfg with
                api_key := some apiKey
                hub := some { h with server_url := some serverUrl, server_type := some 3 } }
      | _, _ => none

theorem foldl_max_le_init (eps : List Endpoint) (a : Nat) :
    a ≤ List.foldl (fun m e => max m e.id) a eps := by
  induction eps generalizing a with
  | nil => exact le_refl a
  | cons e rest ih => exact le_trans (le_max_left a e.id) (ih (max a e.id))

theorem mem_le_foldl_max (eps : List Endpoint) (e : Endpoint) (he : e ∈ eps) (a : Nat) :
    e.id ≤ List.foldl (fun m x => max m x.id) a eps := by
  induction eps generalizing a with
  | nil => cases he
  | cons e2 rest ih =>
    cases he with
    | head => exact le_trans (le_max_right a e.id) (foldl_max_le_init rest (max a e.id))
    | tail b hmem => exact ih hmem (max a e2.id)

theorem foldl_max_attained (eps : List Endpoint) (a : Nat) :
    List.foldl (fun m x => max m x.id) a eps = a ∨
      ∃ e ∈ eps, List.foldl (fun m x => max m x.id) a eps = e.id := by
  induction eps generalizing a with
  | nil => exact Or.inl rfl
  | cons e2 rest ih =>
    rcases ih (max a e2.id) with h | ⟨e3, hmem, hval⟩
    · rcases le_total a e2.id with hle | hle
      · exact Or.inr ⟨e2, List.mem_cons_self _ _, by
          rw [List.foldl_cons] at *
          rw [h, max_eq_right hle]⟩
      · exact Or.inl (by rw [List.foldl_cons, h, max_eq_left hle])
    · exact Or.inr ⟨e3, List.mem_cons_of_mem _ hmem, by rw [List.foldl_cons]; exact hval⟩

theorem mem_id_lt_nextEndpointId (eps : List Endpoint) (e : Endpoint) (he : e ∈ eps) :
    e.id < nextEndpointId eps :=
  Nat.lt_succ_of_le (mem_le_foldl_max eps e he 0)

theorem nextEndpointId_eq_max_succ (eps : List Endpoint) (hne : eps ≠ []) :
    ∃ e ∈ eps, nextEndpointId eps = e.id + 1 := by
  rcases foldl_max_attained eps 0 with h | ⟨e, hmem, hval⟩
  · match eps, hne with
    | e :: rest, _ =>
      refine ⟨e, List.mem_cons_self _ _, ?_⟩
      have hle : e.id ≤ 0 := h ▸ mem_le_foldl_max _ e (List.mem_cons_self _ _) 0
      have : e.id = 0 := Nat.le_zero.mp hle
      simp [nextEndpointId, maxEndpointId, h, this]
  · exact ⟨e, hmem, by simp [nextEndpointId, maxEndpointId, hval]⟩

theorem isReserved_mkHa (i : Nat) (k u : String) :
    isReserved (mkHaEndpoint i k u) = true := by
  simp [isReserved, mkHaEndpoint]

theorem overwriteReserved_mkHa (i : Nat) (k u : String) :
    overwriteReserved k u (mkHaEndpoint i k u) = mkHaEndpoint i k u := by
  simp [overwriteReserved, isReserved_mkHa, mkHaEndpoint]

theorem overwriteReserved_idem (k u : String) (e : Endpoint) :
    overwriteReserved k u (overwriteReserved k u e) = overwriteReserved k u e := by
  by_cases h : isReserved e = true
  · simp [overwriteReserved, h, isReserved_mkHa, mkHaEndpoint]
  · simp [overwriteReserved, h]

theorem map_overwrite_of_not_reserved (eps : List Endpoint) (k u : String)
    (h : hasReserved eps = false) : eps.map (overwriteReserved k u) = eps := by
  have hall : ∀ e ∈ eps, isReserved e = false := by
    intro e he
    by_contra hcon
    have : hasReserved eps = true := by
      simp only [hasReserved, List.any_eq_true]
      exact ⟨e, he, by simpa using hcon⟩
    rw [this] at h
    cases h
  calc eps.map (overwriteReserved k u)
      = eps.map id := List.map_congr_left (fun e he => by
        simp [overwriteReserved, hall e he])
    _ = eps := List.map_id eps

theorem installHaEndpoint_eq_map (eps : List Endpoint) (k u : String)
    (h : hasReserved eps = true) :
    installHaEndpoint eps k u = eps.map (overwriteReserved k u) := by
  unfold installHaEndpoint
  rw [if_pos h]

theorem installHaEndpoint_eq_append (eps : List Endpoint) (k u : String)
    (h : hasReserved eps = false) :
    installHaEndpoint eps k u = eps ++ [mkHaEndpoint (nextEndpointId eps) k u] := by
  unfold installHaEndpoint
  rw [if_neg (by simp [h])]

theorem hasReserved_install (eps : List Endpoint) (k u : String) :
    hasReserved (installHaEndpoint eps k u) = true := by
  by_cases h : hasReserved eps = true
  · obtain ⟨e, he, hres⟩ := (by simpa only [hasReserved, List.any_eq_true] using h :
      ∃ e ∈ eps, isReserved e = true)
    rw [installHaEndpoint_eq_map eps k u h]
    have hmem : ∃ x ∈ eps.map (overwriteReserved k u), isReserved x = true :=
      ⟨overwriteReserved k u e, List.mem_map_of_mem _ he, by
        simp [overwriteReserved, hres, isReserved_mkHa]⟩
    simpa only [hasReserved, List.any_eq_true] using hmem
  · have hf : hasReserved eps = false := by simpa using h
    rw [installHaEndpoint_eq_append eps k u hf]
    have hmem : ∃ x ∈ eps ++ [mkHaEndpoint (nextEndpointId eps) k u],
        isReserved x = true :=
      ⟨mkHaEndpoint (nextEndpointId eps) k u, by simp, isReserved_mkHa _ _ _⟩
    simpa only [hasReserved, List.any_eq_true] using hmem

theorem installHaEndpoint_idem (eps : List Endpoint) (k u : String) :
    installHaEndpoint (installHaEndpoint eps k u) k u = installHaEndpoint eps k u := by
  have hres := hasReserved_install eps k u
  rw [installHaEndpoint_eq_map _ k u hres]
  by_cases h : hasReserved eps = true
  · rw [installHaEndpoint_eq_map eps k u h, List.map_map]
    exact List.map_congr_left (fun e _ => overwriteReserved_idem k u e)
  · have hf : hasReserved eps = false := by simpa using h
    rw [installHaEndpoint_eq_append eps k u hf, List.map_append,
      map_overwrite_of_not_reserved eps k u hf]
    simp [overwriteReserved_mkHa]

theorem installHaEndpoint_length_idem (eps : List Endpoint) (k u : String) :
    (installHaEndpoint (installHaEndpoint eps k u) k u).length =
      (installHaEndpoint eps k u).length := by
  rw [installHaEndpoint_idem]

/-- Claim C2: on a new-schema blob whose endpoints do not already contain the
reserved upstream-listener name, `_modify_device_config` appends exactly one
endpoint — id = max(existing ids) + 1 (or 1 when the list is empty), name
HomeAssistant, type custom, enabled, connection method wifi, and a config
carrying the given api key, the `json` data-format marker, and the given
server url — while every pre-existing endpoint appears in the result
unmodified and in its original order, and every other part of the blob is
passed through untouched. -/
theorem C2_new_schema_append (cfg : ConfigBlob) (eps : List Endpoint) (k u : String)
    (heps : cfg.endpoints = some eps) (hno : hasReserved eps = false) :
    modify_device_config (some cfg) k u =
      some { cfg with
              endpoints := some (eps ++ [mkHaEndpoint (nextEndpointId eps) k u]) } ∧
    (mkHaEndpoint (nextEndpointId eps) k u).name = "HomeAssistant" ∧
    (mkHaEndpoint (nextEndpointId eps) k u).etype = "custom" ∧
    (mkHaEndpoint (nextEndpointId eps) k u).enabled = true ∧
    (mkHaEndpoint (nextEndpointId eps) k u).connection_method = "wifi" ∧
    (mkHaEndpoint (nextEndpointId eps) k u).config =
      [("api_key", k), ("data_format", "json"), ("url", u)] ∧
    (eps = [] → nextEndpointId eps = 1) ∧
    (∀ e ∈ eps, e.id < nextEndpointId eps) ∧
    (eps ≠ [] → ∃ e ∈ eps, nextEndpointId eps = e.id + 1) := by
  refine ⟨?_, rfl, rfl, rfl, rfl, rfl, ?_, ?_, ?_⟩
  · simp [modify_device_config, heps, installHaEndpoint, hno]
  · intro he
    subst he
    rfl
  · exact fun e he => mem_id_lt_nextEndpointId eps e he
  · exact fun hne => nextEndpointId_eq_max_succ eps hne

/-- The pre-existing endpoint of
`src/tests/test_vegehub.py::test_modify_device_config_with_endpoints`, used
as the concrete witness input for claim C2. -/
def vegeCloudEndpoint : Endpoint :=
  { id := 1
    name := "VegeCloud"
    etype := "vegecloud"
    enabled := true
    connection_method := "wifi"
    config := [("api_key", "0000000000000000"), ("route_key", "34315633"),
               ("server_url", "https://api.vegecloud.com/v2")] }

/-- The config blob of that test: one existing endpoint plus old-schema keys. -/
def testConfigBlob : ConfigBlob :=
  { endpoints := some [vegeCloudEndpoint]
    api_key := some "oldkey"
    hub := some { server_url := none, server_type := none, extra := [] }
    extra := [] }

theorem C2_new_schema_append_witness :
    modify_device_config (some testConfigBlob) "1234567890ABCD" "http://example.com" =
      some { testConfigBlob with
              endpoints := some ([vegeCloudEndpoint] ++
                [mkHaEndpoint (nextEndpointId [vegeCloudEndpoint]) "1234567890ABCD"
                  "http://example.com"]) } ∧
    (mkHaEndpoint (nextEndpointId [vegeCloudEndpoint]) "1234567890ABCD"
      "http://example.com").name = "HomeAssistant" ∧
    (mkHaEndpoint (nextEndpointId [vegeCloudEndpoint]) "1234567890ABCD"
      "http://example.com").etype = "custom" ∧
    (mkHaEndpoint (nextEndpointId [vegeCloudEndpoint]) "1234567890ABCD"
      "http://example.com").enabled = true ∧
    (mkHaEndpoint (nextEndpointId [vegeCloudEndpoint]) "1234567890ABCD"
      "http://example.com").connection_method = "wifi" ∧
    (mkHaEndpoint (nextEndpointId [vegeCloudEndpoint]) "1234567890ABCD"
      "http://example.com").config =
      [("api_key", "1234567890ABCD"), ("data_format", "json"),
       ("url", "http://example.com")] ∧
    ([vegeCloudEndpoint] = ([] : List Endpoint) →
      nextEndpointId [vegeCloudEndpoint] = 1) ∧
    (∀ e ∈ [vegeCloudEndpoint], e.id < nextEndpointId [vegeCloudEndpoint]) ∧
    ([vegeCloudEndpoint] ≠ [] →
      ∃ e ∈ [vegeCloudEndpoint], nextEndpointId [vegeCloudEndpoint] = e.id + 1) :=
  C2_new_schema_append testConfigBlob [vegeCloudEndpoint] "1234567890ABCD"
    "http://example.com" rfl (by decide)

/-- Claim C10: a blob that simultaneously holds an `endpoints` list and the
old-schema keys `api_key` and `hub` is classified as new schema: the result
has the reserved HomeAssistant endpoint installed in its endpoint list, and
neither the top-level `api_key` nor the `hub` mapping is mutated (the
old-schema top-level mutation is not applied). -/
theorem C10_new_schema_precedence (cfg : ConfigBlob) (eps : List Endpoint)
    (a : String) (h : HubSection) (k u : String)
    (heps : cfg.endpoints = some eps) (hak : cfg.api_key = some a)
    (hhub : cfg.hub = some h) :
    modify_device_config (some cfg) k u =
      some { cfg with endpoints := some (installHaEndpoint eps k u) } ∧
    hasReserved (installHaEndpoint eps k u) = true ∧
    ({ cfg with endpoints := some (installHaEndpoint eps k u) } : ConfigBlob).api_key
      = some a ∧
    ({ cfg with endpoints := some (installHaEndpoint eps k u) } : ConfigBlob).hub
      = some h := by
  refine ⟨?_, hasReserved_install eps k u, ?_, ?_⟩
  · simp [modify_device_config, heps]
  · simpa using hak
  · simpa using hhub

theorem C10_new_schema_precedence_witness :
    modify_device_config (some testConfigBlob) "1234567890ABCD" "http://example.com" =
      some { testConfigBlob with
              endpoints := some (installHaEndpoint [vegeCloudEndpoint] "1234567890ABCD"
                "http://example.com") } ∧
    hasReserved (installHaEndpoint [vegeCloudEndpoint] "1234567890ABCD"
      "http://example.com") = true ∧
    ({ testConfigBlob with
        endpoints := some (installHaEndpoint [vegeCloudEndpoint] "1234567890ABCD"
          "http://example.com") } : ConfigBlob).api_key = some "oldkey" ∧
    ({ testConfigBlob with
        endpoints := some (installHaEndpoint [vegeCloudEndpoint] "1234567890ABCD"
          "http://example.com") } : ConfigBlob).hub =
      some { server_url := none, server_type := none, extra := [] } :=
  C10_new_schema_precedence testConfigBlob [vegeCloudEndpoint] "oldkey"
    { server_url := none, server_type := none, extra := [] }
    "1234567890ABCD" "http://example.com" rfl rfl rfl

/-- The `hub` sub-object of the info endpoint's response, as cached by the
handle: the documented nested keys the derived fields are projected from,
each optional (a missing key leaves the corresponding derived field unset
rather than raising). -/
structure InfoBlob where
  num_channels : Option Nat
  num_actuators : Option Nat
  version : Option String
  is_ac : Option Nat
deriving DecidableEq, Repr

/-- The mutable cached state of one DeviceHandle: MAC address, derived
simple MAC, and the last successfully fetched info blob (all unset until
fetched; the MAC strings start out empty). -/
structure HandleState where
  mac_address : String
  simple_mac_address : String
  info : Option InfoBlob
deriving DecidableEq, Repr

/-- A freshly created handle: nothing fetched yet. -/
def initialHandle : HandleState :=
  { mac_address := "", simple_mac_address := "", info := none }

/-- Derived field: sensor-channel count, a read-through projection of the
cached info blob. -/
def HandleState.num_sensors (st : HandleState) : Option Nat :=
  st.info.bind (fun ib => ib.num_channels)

/-- Derived field: actuator count, a read-through projection of the cached
info blob. -/
def HandleState.num_actuators (st : HandleState) : Option Nat :=
  st.info.bind (fun ib => ib.num_actuators)

/-- Derived field: firmware version string, a read-through projection of the
cached info blob. -/
def HandleState.sw_version (st : HandleState) : Option String :=
  st.info.bind (fun ib => ib.version)

/-- Derived field: AC-powered flag, a read-through projection of the cached
info blob (the device reports 0/1). -/
def HandleState.is_ac (st : HandleState) : Option Bool :=
  st.info.bind (fun ib => ib.is_ac.map (fun n => n != 0))

/-- The result of one already-retried device call, abstracting the §4.3
executor: either the parsed 2xx payload, or transport exhaustion (which the
executor surfaces as the `connection`-kind error). -/
inductive FetchResult (α : Type) where
  | ok (val : α)
  | exhausted (reason : String)

/-- What one `setup` call produced: the handle state afterwards, the overall
outcome (`Except.error` models the raised error, `Except.ok b` the boolean
return), and the blob written through the config-set endpoint (`none` when no
write was issued). -/
structure SetupResult where
  state : HandleState
  outcome : Except VegeError Bool
  written : Option ConfigBlob

/-- Modelled from the spec: the `setup(apiKey, serverUrl, retries)` state
machine of the config reconciler (`vegehub/vegehub.py`, absent from src/).
Fetch the config blob (raising on transport exhaustion); a missing blob or a
blob matching neither schema is an ordinary `false` return with no write;
otherwise write the mutated blob back (raising on exhaustion) and then
refresh the device info as a courtesy: a refresh failing with transport
exhaustion raises and leaves the info blob unset, a refresh returning no
usable payload leaves the info blob unset without invalidating the
successful write. -/
def setup (st : HandleState) (apiKey serverUrl : String)
    (fetchCfg : FetchResult (Option ConfigBlob)) (writeCfg : FetchResult Unit)
    (fetchInfo : FetchResult (Option InfoBlob)) : SetupResult :=
  match fetchCfg with
  | FetchResult.exhausted r => ⟨st, Except.error (VegeError.connection r), none⟩
  | FetchResult.ok cfgOpt =>
    match modify_device_config cfgOpt apiKey serverUrl with
    | none => ⟨st, Except.ok false, none⟩
    | some newCfg =>
      match writeCfg with
      | FetchResult.exhausted r =>
        ⟨st, Except.error (VegeError.connection r), some newCfg⟩
      | FetchResult.ok _ =>
        match fetchInfo with
        | FetchResult.exhausted r =>
          ⟨{ st with info := none }, Except.error (VegeError.connection r), some newCfg⟩
        | FetchResult.ok none => ⟨{ st with info := none }, Except.ok true, some newCfg⟩
        | FetchResult.ok (some ib) => ⟨{ st with info := some ib }, Except.ok true, some newCfg⟩

/-- The device's side of a setup exchange: it stores one config blob; a
successful config-set write replaces it. -/
structure Device where
  config : Option ConfigBlob

/-- One `setup` call run against a live device whose transport succeeds: the
config fetch returns the device's stored blob, and the write (when issued)
replaces the stored blob. -/
def setupOnDevice (d : Device) (st : HandleState) (apiKey serverUrl : String)
    (fetchInfo : FetchResult (Option InfoBlob)) : Device × SetupResult :=
  let r := setup st apiKey serverUrl (FetchResult.ok d.config) (FetchResult.ok ()) fetchInfo
  (match r.written with
   | none => d
   | some c => { config := some c }, r)

/-- Endpoint count of a device's stored config (0 when no new-schema list is
stored). -/
def Device.endpointCount (d : Device) : Nat :=
  match d.config with
  | none => 0
  | some cfg =>
    match cfg.endpoints with
    | none => 0
    | some eps => eps.length

theorem setup_written_of_modify (st : HandleState) (k u : String)
    (cfgOpt : Option ConfigBlob) (fi : FetchResult (Option InfoBlob)) (c : ConfigBlob)
    (h : modify_device_config cfgOpt k u = some c) :
    (setup st k u (FetchResult.ok cfgOpt) (FetchResult.ok ()) fi).written = some c := by
  cases fi with
  | exhausted r => simp [setup, h]
  | ok v =>
    cases v with
    | none => simp [setup, h]
    | some ib => simp [setup, h]

theorem setupOnDevice_config (d : Device) (st : HandleState) (k u : String)
    (fi : FetchResult (Option InfoBlob)) (c : ConfigBlob)
    (h : modify_device_config d.config k u = some c) :
    (setupOnDevice d st k u fi).1 = { config := some c } := by
  simp [setupOnDevice, setup_written_of_modify st k u d.config fi c h]

theorem modify_idem_new (cfg : ConfigBlob) (eps : List Endpoint) (k u : String) :
    modify_device_config
        (some { cfg with endpoints := some (installHaEndpoint eps k u) }) k u =
      some { cfg with endpoints := some (installHaEndpoint eps k u) } := by
  simp [modify_device_config, installHaEndpoint_idem]

/-- Claim C3: running setup twice with identical (apiKey, serverUrl) against
a new-schema device overwrites the same reserved-name endpoint in place
rather than appending a duplicate: the stored endpoint count after the second
call equals the count after the first call (indeed the second call leaves the
device's stored config exactly as the first call left it). -/
theorem C3_setup_idempotent (d : Device) (cfg : ConfigBlob) (eps : List Endpoint)
    (st1 st2 : HandleState) (k u : String)
    (fi1 fi2 : FetchResult (Option InfoBlob))
    (hd : d.config = some cfg) (heps : cfg.endpoints = some eps) :
    ((setupOnDevice ((setupOnDevice d st1 k u fi1).1) st2 k u fi2).1).endpointCount =
      ((setupOnDevice d st1 k u fi1).1).endpointCount ∧
    (setupOnDevice ((setupOnDevice d st1 k u fi1).1) st2 k u fi2).1 =
      (setupOnDevice d st1 k u fi1).1 := by
  have h1 : modify_device_config d.config k u =
      some { cfg with endpoints := some (installHaEndpoint eps k u) } := by
    simp [hd, modify_device_config, heps]
  have hd1 := setupOnDevice_config d st1 k u fi1 _ h1
  have h2 : modify_device_config
      ((setupOnDevice d st1 k u fi1).1).config k u =
      some { cfg with endpoints := some (installHaEndpoint eps k u) } := by
    rw [hd1]
    exact modify_idem_new cfg eps k u
  have hd2 := setupOnDevice_config ((setupOnDevice d st1 k u fi1).1) st2 k u fi2 _ h2
  exact ⟨by rw [hd2, hd1], by rw [hd2, hd1]⟩

theorem C3_setup_idempotent_witness :
    ((setupOnDevice
        ((setupOnDevice ⟨some testConfigBlob⟩ initialHandle "1234567890ABCD"
          "http://example.com" (FetchResult.ok none)).1)
        initialHandle "1234567890ABCD" "http://example.com"
        (FetchResult.ok none)).1).endpointCount =
      ((setupOnDevice ⟨some testConfigBlob⟩ initialHandle "1234567890ABCD"
        "http://example.com" (FetchResult.ok none)).1).endpointCount ∧
    (setupOnDevice
        ((setupOnDevice ⟨some testConfigBlob⟩ initialHandle "1234567890ABCD"
          "http://example.com" (FetchResult.ok none)).1)
        initialHandle "1234567890ABCD" "http://example.com"
        (FetchResult.ok none)).1 =
      (setupOnDevice ⟨some testConfigBlob⟩ initialHandle "1234567890ABCD"
        "http://example.com" (FetchResult.ok none)).1 :=
  C3_setup_idempotent ⟨some testConfigBlob⟩ testConfigBlob [vegeCloudEndpoint]
    initialHandle initialHandle "1234567890ABCD" "http://example.com"
    (FetchResult.ok none) (FetchResult.ok none) rfl rfl

theorem setup_raises_only_connection (st2 : HandleState) (k2 u2 : String)
    (fc : FetchResult (Option ConfigBlob)) (w2 : FetchResult Unit)
    (fi2 : FetchResult (Option InfoBlob)) (e : VegeError)
    (h : (setup st2 k2 u2 fc w2 fi2).outcome = Except.error e) :
    ∃ r, e = VegeError.connection r := by
  cases fc with
  | exhausted r =>
    simp [setup] at h
    exact ⟨r, h.symm⟩
  | ok cfgOpt =>
    cases hm : modify_device_config cfgOpt k2 u2 with
    | none => simp [setup, hm] at h
    | some c =>
      cases w2 with
      | exhausted r =>
        simp [setup, hm] at h
        exact ⟨r, h.symm⟩
      | ok _ =>
        cases fi2 with
        | exhausted r =>
          simp [setup, hm] at h
          exact ⟨r, h.symm⟩
        | ok v =>
          cases v with
          | none => simp [setup, hm] at h
          | some ib => simp [setup, hm] at h

/-- Claim C4: a fetched config blob that matches neither schema, or lacks the
`api_key` or `hub` key while not holding an `endpoints` list, makes setup
return false with no mutated blob produced, no config-write issued and no
exception raised; and setup only ever raises the `connection`-kind
transport-exhaustion error. -/
theorem C4_classification_failure (st : HandleState) (k u : String)
    (cfgOpt : Option ConfigBlob) (w : FetchResult Unit)
    (fi : FetchResult (Option InfoBlob))
    (hbad : cfgOpt = none ∨ ∃ cfg, cfgOpt = some cfg ∧ cfg.endpoints = none ∧
      (cfg.api_key = none ∨ cfg.hub = none)) :
    modify_device_config cfgOpt k u = none ∧
    setup st k u (FetchResult.ok cfgOpt) w fi =
      ⟨st, Except.ok false, none⟩ ∧
    (∀ st2 k2 u2 fc w2 fi2 e, (setup st2 k2 u2 fc w2 fi2).outcome = Except.error e →
      ∃ r, e = VegeError.connection r) := by
  have hm : modify_device_config cfgOpt k u = none := by
    rcases hbad with h | ⟨cfg, hc, heps, hkey⟩
    · rw [h]; rfl
    · subst hc
      rcases hkey with hak | hhub
      · cases hhub2 : cfg.hub <;> simp [modify_device_config, heps, hak, hhub2]
      · cases hak2 : cfg.api_key <;> simp [modify_device_config, heps, hak2, hhub]
  refine ⟨hm, ?_, fun st2 k2 u2 fc w2 fi2 e h =>
    setup_raises_only_connection st2 k2 u2 fc w2 fi2 e h⟩
  simp [setup, hm]

/-- The blob of
`src/tests/test_vegehub.py::test_modify_device_config_old_format_missing_hub`:
an `api_key` but no `hub` key and no endpoint list, used as the concrete
witness input for claim C4. -/
def missingHubBlob : ConfigBlob :=
  { endpoints := none, api_key := some "oldkey", hub := none, extra := [] }

theorem C4_classification_failure_witness :
    modify_device_config (some missingHubBlob) "1234567890ABCD" "http://example.com"
      = none ∧
    setup initialHandle "1234567890ABCD" "http://example.com"
      (FetchResult.ok (some missingHubBlob)) (FetchResult.ok ())
      (FetchResult.ok none) =
      ⟨initialHandle, Except.ok false, none⟩ ∧
    (∀ st2 k2 u2 fc w2 fi2 e, (setup st2 k2 u2 fc w2 fi2).outcome = Except.error e →
      ∃ r, e = VegeError.connection r) :=
  C4_classification_failure initialHandle "1234567890ABCD" "http://example.com"
    (some missingHubBlob) (FetchResult.ok ()) (FetchResult.ok none)
    (Or.inr ⟨missingHubBlob, rfl, rfl, Or.inr rfl⟩)

/-- An info blob whose `version` key is missing while the other documented
keys are present: per the spec a missing key leaves only the corresponding
derived field unset. -/
def sparseInfoBlob : InfoBlob :=
  { num_channels := some 4, num_actuators := some 2, version := none, is_ac := some 0 }

/-- An old-schema config blob with both required keys, so that setup reaches
the post-write info refresh. -/
def oldSchemaBlob : ConfigBlob :=
  { endpoints := none
    api_key := some "1234567890ABCD"
    hub := some { server_url := none, server_type := none, extra := [] }
    extra := [] }

/-- A handle state reached by a successful setup whose info refresh returned
a hub blob lacking the `version` key. -/
def sparseInfoState : HandleState :=
  (setup initialHandle "1234567890ABCD" "http://example.com"
    (FetchResult.ok (some oldSchemaBlob)) (FetchResult.ok ())
    (FetchResult.ok (some sparseInfoBlob))).state

/-- The invariant exactly as claim C7 states it: the four derived fields read
as unset whenever the info blob is unset, and are all populated whenever the
info blob is set. -/
def derivedPopulatedTogether : Prop :=
  ∀ st : HandleState,
    (st.info = none → st.num_sensors = none ∧ st.num_actuators = none ∧
      st.sw_version = none ∧ st.is_ac = none) ∧
    (st.info ≠ none → st.num_sensors ≠ none ∧ st.num_actuators ≠ none ∧
      st.sw_version ≠ none ∧ st.is_ac ≠ none)

/-- Claim C7 counterexample: a reachable handle state whose cached info blob
is set but lacks the `version` key has `num_sensors` populated while
`sw_version` reads as unset, so the derived fields are not populated
together whenever the info blob is set. -/
theorem C7_populated_together_counterexample :
    sparseInfoState.info = some sparseInfoBlob ∧
    sparseInfoState.num_sensors = some 4 ∧
    sparseInfoState.sw_version = none ∧
    ¬ derivedPopulatedTogether := by
  refine ⟨rfl, rfl, rfl, fun h => ?_⟩
  have h2 := (h sparseInfoState).2 (by
    intro hcon
    exact Option.noConfusion ((rfl : sparseInfoState.info = some sparseInfoBlob) ▸ hcon))
  exact h2.2.2.1 rfl

/-- Claim C7, amended: the derived fields num_sensors, num_actuators,
sw_version and is_ac are read-through projections of the cached info blob:
whenever the info blob is unset all four read as unset, and whenever it is
set each derived field equals the projection of its documented key (a key
missing from the blob leaves exactly that field unset); in particular a
setup whose post-write info refresh fails — with transport exhaustion or
with an unusable payload — leaves the info blob and all four derived fields
unset together, never half-updated. -/
theorem C7_read_through_projections :
    (∀ st : HandleState, st.info = none → st.num_sensors = none ∧
      st.num_actuators = none ∧ st.sw_version = none ∧ st.is_ac = none) ∧
    (∀ (st : HandleState) (ib : InfoBlob), st.info = some ib →
      st.num_sensors = ib.num_channels ∧ st.num_actuators = ib.num_actuators ∧
      st.sw_version = ib.version ∧
      st.is_ac = ib.is_ac.map (fun n => n != 0)) ∧
    (∀ (st : HandleState) (k u : String) (cfgOpt : Option ConfigBlob)
      (c : ConfigBlob) (r : String),
      modify_device_config cfgOpt k u = some c →
      (setup st k u (FetchResult.ok cfgOpt) (FetchResult.ok ())
          (FetchResult.exhausted r)).state.info = none ∧
      (setup st k u (FetchResult.ok cfgOpt) (FetchResult.ok ())
          (FetchResult.exhausted r)).state.num_sensors = none ∧
      (setup st k u (FetchResult.ok cfgOpt) (FetchResult.ok ())
          (FetchResult.exhausted r)).state.sw_version = none ∧
      (setup st k u (FetchResult.ok cfgOpt) (FetchResult.ok ())
          (FetchResult.ok none)).state.info = none ∧
      (setup st k u (FetchResult.ok cfgOpt) (FetchResult.ok ())
          (FetchResult.ok none)).state.num_sensors = none ∧
      (setup st k u (FetchResult.ok cfgOpt) (FetchResult.ok ())
          (FetchResult.ok none)).state.sw_version = none) := by
  refine ⟨?_, ?_, ?_⟩
  · intro st h
    simp [HandleState.num_sensors, HandleState.num_actuators, HandleState.sw_version,
      HandleState.is_ac, h]
  · intro st ib h
    simp [HandleState.num_sensors, HandleState.num_actuators, HandleState.sw_version,
      HandleState.is_ac, h]
  · intro st k u cfgOpt c r hm
    simp [setup, hm, HandleState.num_sensors, HandleState.sw_version]

theorem C7_read_through_projections_witness :
    initialHandle.num_sensors = none ∧
    sparseInfoState.num_sensors = sparseInfoBlob.num_channels ∧
    sparseInfoState.sw_version = sparseInfoBlob.version ∧
    (setup initialHandle "1234567890ABCD" "http://example.com"
        (FetchResult.ok (some oldSchemaBlob)) (FetchResult.ok ())
        (FetchResult.exhausted "timeout")).state.info = none ∧
    (setup initialHandle "1234567890ABCD" "http://example.com"
        (FetchResult.ok (some oldSchemaBlob)) (FetchResult.ok ())
        (FetchResult.exhausted "timeout")).state.sw_version = none := by
  refine ⟨(C7_read_through_projections.1 initialHandle rfl).1, ?_, ?_, ?_, ?_⟩
  · exact (C7_read_through_projections.2.1 sparseInfoState sparseInfoBlob rfl).1
  · exact (C7_read_through_projections.2.1 sparseInfoState sparseInfoBlob rfl).2.2.1
  · exact (C7_read_through_projections.2.2 initialHandle "1234567890ABCD"
      "http://example.com" (some oldSchemaBlob) _ "timeout" rfl).1
  · exact (C7_read_through_projections.2.2 initialHandle "1234567890ABCD"
      "http://example.com" (some oldSchemaBlob) _ "timeout" rfl).2.2.1

/-- The `wifi` sub-object of the info endpoint's response; `mac_addr = none`
models the key being absent. -/
structure WifiSection where
  mac_addr : Option String
deriving DecidableEq, Repr

/-- The info endpoint's parsed 2xx response, as seen by the MAC accessor. -/
structure InfoResponse where
  wifi : Option WifiSection
deriving DecidableEq, Repr

/-- Drop the separator characters of a reported MAC string. -/
def stripSeparators (s : String) : String :=
  String.mk (s.data.filter (fun c => c ≠ ':' ∧ c ≠ '-'))

/-- Uppercase a string character by character. -/
def upperString (s : String) : String := String.mk (s.data.map Char.toUpper)

/-- Lowercase a string character by character. -/
def lowerString (s : String) : String := String.mk (s.data.map Char.toLower)

/-- Modelled from the spec: the normalized MAC cached on the handle after a
successful fetch; the unit test
`src/tests/test_vegehub.py::test_retrieve_mac_address_success` pins it to
uppercase with the separators removed. -/
def normalizeMac (s : String) : String := upperString (stripSeparators s)

/-- The derived simple MAC: lowercase, no separators. -/
def simpleMac (s : String) : String := lowerString (stripSeparators s)

/-- Modelled from the spec: `VegeHub.retrieve_mac_address`
(`vegehub/vegehub.py`, absent from src/).  POSTs to the info endpoint
(already-retried transport abstracted as a `FetchResult`); an absent or empty
`wifi.mac_addr` field is an ordinary `false` return leaving the cached MAC
untouched, a non-empty one is cached in normalized form with the simple MAC
derived, and transport exhaustion surfaces the `connection`-kind error. -/
def retrieve_mac_address (st : HandleState) (fetch : FetchResult InfoResponse) :
    Except VegeError (HandleState × Bool) :=
  match fetch with
  | FetchResult.exhausted r => Except.error (VegeError.connection r)
  | FetchResult.ok resp =>
    match resp.wifi with
    | none => Except.ok (st, false)
    | some w =>
      match w.mac_addr with
      | none => Except.ok (st, false)
      | some m =>
        if m = "" then Except.ok (st, false)
        else
          Except.ok
            ({ st with mac_address := normalizeMac m, simple_mac_address := simpleMac m },
              true)

/-- The wifi payload of
`src/tests/test_vegehub.py::test_retrieve_mac_address_success`. -/
def testWifiResponse : InfoResponse :=
  { wifi := some { mac_addr := some "AA:BB:CC:DD:EE:FF" } }

/-- Claim C8 counterexample: after a successful retrieve_mac_address on the
device-reported MAC `AA:BB:CC:DD:EE:FF`, the handle caches `AABBCCDDEEFF` —
uppercase hex with the separators removed, not the canonical colon-separated
uppercase form the claim states (the repository's own unit test asserts the
separator-free form). -/
theorem C8_colon_separated_counterexample :
    retrieve_mac_address initialHandle (FetchResult.ok testWifiResponse) =
      Except.ok
        ({ mac_address := "AABBCCDDEEFF", simple_mac_address := "aabbccddeeff",
           info := none }, true) ∧
    "AABBCCDDEEFF" ≠ "AA:BB:CC:DD:EE:FF" :=
  ⟨by rfl, by decide⟩

/-- Claim C8, amended: after a successful retrieve_mac_address the handle
caches the MAC address in uppercase separator-free hex form (as the unit
tests pin it, not colon-separated) and derives the lowercase separator-free
simple MAC; when the 2xx response's wifi.mac_addr field is absent or empty
the call returns false without raising and leaves the cached state
untouched; and when the transport fails after exhausting retries the call
raises the ConnectionError kind. -/
theorem C8_mac_address_caching (st : HandleState) (m : String) (hne : m ≠ "") :
    retrieve_mac_address st (FetchResult.ok { wifi := some { mac_addr := some m } }) =
      Except.ok
        ({ st with
            mac_address := upperString (stripSeparators m)
            simple_mac_address := lowerString (stripSeparators m) }, true) ∧
    retrieve_mac_address st (FetchResult.ok { wifi := some { mac_addr := none } }) =
      Except.ok (st, false) ∧
    retrieve_mac_address st (FetchResult.ok { wifi := none }) =
      Except.ok (st, false) ∧
    retrieve_mac_address st (FetchResult.ok { wifi := some { mac_addr := some "" } }) =
      Except.ok (st, false) ∧
    (∀ r, retrieve_mac_address st (FetchResult.exhausted r) =
      Except.error (VegeError.connection r)) := by
  refine ⟨?_, rfl, rfl, rfl, fun r => rfl⟩
  simp [retrieve_mac_address, normalizeMac, simpleMac, hne]

theorem C8_mac_address_caching_witness :
    retrieve_mac_address initialHandle
        (FetchResult.ok { wifi := some { mac_addr := some "AA:BB:CC:DD:EE:FF" } }) =
      Except.ok
        ({ initialHandle with
            mac_address := upperString (stripSeparators "AA:BB:CC:DD:EE:FF")
            simple_mac_address := lowerString (stripSeparators "AA:BB:CC:DD:EE:FF") }, true) ∧
    retrieve_mac_address initialHandle
        (FetchResult.ok { wifi := some { mac_addr := none } }) =
      Except.ok (initialHandle, false) ∧
    retrieve_mac_address initialHandle (FetchResult.ok { wifi := none }) =
      Except.ok (initialHandle, false) ∧
    retrieve_mac_address initialHandle
        (FetchResult.ok { wifi := some { mac_addr := some "" } }) =
      Except.ok (initialHandle, false) ∧
    (∀ r, retrieve_mac_address initialHandle (FetchResult.exhausted r) =
      Except.error (VegeError.connection r)) :=
  C8_mac_address_caching initialHandle "AA:BB:CC:DD:EE:FF" (by decide)

/-- One actuator's device-reported telemetry entry. -/
structure ActuatorState where
  slot : Nat
  state : Nat
deriving DecidableEq, Repr

/-- The actuator status endpoint's parsed 2xx response; `actuators = none`
models a body lacking the `actuators` key. -/
structure ActuatorStatusResponse where
  actuators : Option (List ActuatorState)
deriving DecidableEq, Repr

/-- Modelled from the spec: `VegeHub.actuator_states`
(`vegehub/vegehub.py`, absent from src/).  GETs the status endpoint
(already-retried transport abstracted as a `FetchResult`); a 2xx body
lacking the `actuators` key raises the application-level data-shape error,
distinct from the `connection` kind raised on transport exhaustion. -/
def actuator_states (fetch : FetchResult ActuatorStatusResponse) :
    Except VegeError (List ActuatorState) :=
  match fetch with
  | FetchResult.exhausted r => Except.error (VegeError.connection r)
  | FetchResult.ok resp =>
    match resp.actuators with
    | none => Except.error (VegeError.dataShape "actuators")
    | some xs => Except.ok xs

/-- Claim C9: a 2xx actuator-status response whose body lacks the
`actuators` key makes actuator_states raise the application-level data-shape
error — which is distinct from every ConnectionError-kind error, and in
particular is never a silent empty-sequence return — whereas exhausting the
retry budget raises the ConnectionError kind. -/
theorem C9_actuator_states_data_shape (resp : ActuatorStatusResponse)
    (h : resp.actuators = none) :
    actuator_states (FetchResult.ok resp) =
      Except.error (VegeError.dataShape "actuators") ∧
    (∀ r, (VegeError.dataShape "actuators") ≠ VegeError.connection r) ∧
    (∀ xs, actuator_states (FetchResult.ok resp) ≠ Except.ok xs) ∧
    (∀ r, actuator_states (FetchResult.exhausted r) =
      Except.error (VegeError.connection r)) := by
  refine ⟨?_, fun r hcon => VegeError.noConfusion hcon, ?_, fun r => rfl⟩
  · simp [actuator_states, h]
  · intro xs hcon
    rw [show actuator_states (FetchResult.ok resp) =
      Except.error (VegeError.dataShape "actuators") from by simp [actuator_states, h]]
      at hcon
    exact Except.noConfusion hcon

theorem C9_actuator_states_data_shape_witness :
    actuator_states (FetchResult.ok { actuators := none }) =
      Except.error (VegeError.dataShape "actuators") ∧
    (∀ r, (VegeError.dataShape "actuators") ≠ VegeError.connection r) ∧
    (∀ xs, actuator_states (FetchResult.ok { actuators := none }) ≠ Except.ok xs) ∧
    (∀ r, actuator_states (FetchResult.exhausted r) =
      Except.error (VegeError.connection r)) :=
  C9_actuator_states_data_shape { actuators := none } rfl

/-- A dynamically-typed input value as the calibration transforms receive it:
a number, a string, a boolean, the null value, or some other non-numeric
object (a list). -/
inductive PyVal where
  | pynum (q : ℚ)
  | pystr (s : String)
  | pybool (b : Bool)
  | pynone
  | pylist (n : Nat)

/-- Numeric value of a digit character, if it is one. -/
def digitVal (c : Char) : Option Nat :=
  if c.isDigit then some (c.toNat - 48) else none

/-- Read a digit sequence as a natural number; fails on any non-digit. -/
def digitsToNat (cs : List Char) : Option Nat :=
  cs.foldl
    (fun acc c =>
      match acc, digitVal c with
      | some n, some d => some (10 * n + d)
      | _, _ => none)
    (some 0)

/-- Split a character list at the dots. -/
def splitDot : List Char → List (List Char)
  | [] => [[]]
  | c :: rest =>
    if c = '.' then [] :: splitDot rest
    else
      match splitDot rest with
      | [] => [[c]]
      | h :: t => (c :: h) :: t

/-- Modelled from the spec: the host language's numeric conversion of a
numeric-looking string (optional sign, decimal digits, at most one decimal
point), exact over ℚ; anything else is unconvertible. -/
def parseDecimal (s : String) : Option ℚ :=
  match s.data with
  | [] => none
  | cs =>
    let signed : Bool × List Char :=
      match cs with
      | '-' :: rest => (true, rest)
      | '+' :: rest => (false, rest)
      | _ => (false, cs)
    let mag : Option ℚ :=
      match splitDot signed.2 with
      | [ip] =>
        if ip.isEmpty then none
        else (digitsToNat ip).map (fun n => (n : ℚ))
      | [ip, fp] =>
        if ip.isEmpty && fp.isEmpty then none
        else
          match digitsToNat ip, digitsToNat fp with
          | some i, some f => some ((i : ℚ) + (f : ℚ) / (10 : ℚ) ^ fp.length)
          | _, _ => none
      | _ => none
    mag.map (fun q => if signed.1 then -q else q)

/-- Modelled from the spec: coercion of a transform input to a number —
booleans coerce natively (true → 1, false → 0), numeric-looking strings
convert, and every other value is unconvertible. -/
def toNumber : PyVal → Option ℚ
  | PyVal.pynum q => some q
  | PyVal.pybool b => some (if b then 1 else 0)
  | PyVal.pystr s => parseDecimal s
  | PyVal.pynone => none
  | PyVal.pylist _ => none

/-- The (voltage, percent) breakpoint pairs of the capacitance-type
(moisture) lookup table, pinned by the reference vectors of
`src/tests/test_helpers.py::test_vh400_transform`. -/
def vh400Table : List (ℚ × ℚ) :=
  [(0, 0), (1.1, 10), (1.3, 15), (1.82, 40), (2.2, 50), (3, 100)]

/-- Linear interpolation through a breakpoint list: inputs above the highest
breakpoint clamp to the last value. -/
def piecewiseLinear (x : ℚ) : List (ℚ × ℚ) → ℚ
  | [] => 0
  | [p] => p.2
  | p :: q :: rest =>
    if x ≤ q.1 then p.2 + (x - p.1) * (q.2 - p.2) / (q.1 - p.1)
    else piecewiseLinear x (q :: rest)

/-- Modelled from the spec: the capacitance-type (moisture probe) transform
curve — below the 0.01 noise floor (including every negative input) exactly
0, then the monotone piecewise-linear lookup table, clamping to 100 above
the highest breakpoint. -/
def vh400_curve (x : ℚ) : ℚ :=
  if x < 0.01 then 0 else piecewiseLinear x vh400Table

/-- Modelled from the spec: `helpers.vh400_transform`
(`vegehub/helpers.py`, absent from src/).  Unconvertible input yields the
sentinel `none` (the function never raises: it is total). -/
def vh400_transform (v : PyVal) : Option ℚ :=
  (toNumber v).map vh400_curve

/-- Modelled from the spec: the resistive-type (temperature probe) linear
formula `41.67 * v - 40`, constants pinned by the reference vectors of
`src/tests/test_helpers.py::test_therm200_transform`. -/
def therm200_curve (x : ℚ) : ℚ := 41.67 * x - 40

/-- Modelled from the spec: `helpers.therm200_transform`
(`vegehub/helpers.py`, absent from src/).  Unconvertible input yields the
sentinel `none` (the function never raises: it is total). -/
def therm200_transform (v : PyVal) : Option ℚ :=
  (toNumber v).map therm200_curve

/-- Claim C5: the two calibration transforms equal their reference
definitions on the documented vectors — vh400 at 0.005, 1.1, 3.0, the 10 and
-1 clamps, therm200 at 0, 1, -1000 and the string "2" — and every
non-numeric/unconvertible input (such as the string "invalid", the null
value, or a list) yields the sentinel `none` from both transforms, never an
exception (the transforms are total functions). -/
theorem C5_calibration_vectors :
    vh400_transform (PyVal.pynum 0.005) = some 0 ∧
    vh400_transform (PyVal.pynum 1.1) = some 10 ∧
    vh400_transform (PyVal.pynum 3.0) = some 100 ∧
    vh400_transform (PyVal.pynum 10) = some 100 ∧
    vh400_transform (PyVal.pynum (-1)) = some 0 ∧
    therm200_transform (PyVal.pynum 0) = some (-40) ∧
    therm200_transform (PyVal.pynum 1) = some 1.67 ∧
    therm200_transform (PyVal.pynum (-1000)) = some (-41710) ∧
    therm200_transform (PyVal.pystr "2") = some 43.34 ∧
    vh400_transform (PyVal.pystr "invalid") = none ∧
    vh400_transform PyVal.pynone = none ∧
    vh400_transform (PyVal.pylist 0) = none ∧
    therm200_transform (PyVal.pystr "invalid") = none ∧
    therm200_transform PyVal.pynone = none ∧
    therm200_transform (PyVal.pylist 0) = none ∧
    (∀ v : PyVal, toNumber v = none →
      vh400_transform v = none ∧ therm200_transform v = none) := by
  have hs : parseDecimal "2" = some 2 := by rfl
  refine ⟨?_, ?_, ?_, ?_, ?_, ?_, ?_, ?_, ?_, by rfl, rfl, rfl, by rfl, rfl, rfl, ?_⟩
  · norm_num [vh400_transform, toNumber, vh400_curve, piecewiseLinear, vh400Table]
  · norm_num [vh400_transform, toNumber, vh400_curve, piecewiseLinear, vh400Table]
  · norm_num [vh400_transform, toNumber, vh400_curve, piecewiseLinear, vh400Table]
  · norm_num [vh400_transform, toNumber, vh400_curve, piecewiseLinear, vh400Table]
  · norm_num [vh400_transform, toNumber, vh400_curve, piecewiseLinear, vh400Table]
  · norm_num [therm200_transform, toNumber, therm200_curve]
  · norm_num [therm200_transform, toNumber, therm200_curve]
  · norm_num [therm200_transform, toNumber, therm200_curve]
  · norm_num [therm200_transform, toNumber, hs, therm200_curve]
  · intro v h
    simp [vh400_transform, therm200_transform, h]

theorem C5_calibration_vectors_witness :
    toNumber PyVal.pynone = none ∧
    vh400_transform PyVal.pynone = none ∧ therm200_transform PyVal.pynone = none :=
  ⟨rfl, (C5_calibration_vectors.2.2.2.2.2.2.2.2.2.2.2.2.2.2.2 PyVal.pynone rfl).1,
    (C5_calibration_vectors.2.2.2.2.2.2.2.2.2.2.2.2.2.2.2 PyVal.pynone rfl).2⟩

/-- One sensor sample of a push-update payload (the timestamp is not
interpreted by the normalizer). -/
structure Sample where
  v : ℚ
deriving DecidableEq, Repr

/-- One per-slot entry of a push-update payload's `sensors` sequence. -/
structure SensorEntry where
  slot : Nat
  samples : List Sample
deriving DecidableEq, Repr

/-- A device push-update payload as the normalizer sees it; `sensors = none`
models a payload lacking the `sensors` key. -/
structure UpdatePayload where
  mac : String
  sensors : Option (List SensorEntry)
deriving DecidableEq, Repr

/-- The latest value of a slot: the `v` of the last sample of its sample
sequence (no sorting performed). -/
def SensorEntry.lastValue (e : SensorEntry) : Option ℚ :=
  e.samples.getLast?.map Sample.v

/-- Modelled from the spec: which home-assistant key a slot lands under —
every slot is an actuator in all-actuator mode; otherwise the first
`numSensors` slots are analog channels, the next slot is the battery
channel, and the following `numActuators` slots are actuators; slots beyond
that are skipped.  The partition is pinned by
`src/tests/test_helpers.py::test_update_ha_data_converter` (battery = slot
numSensors+1, actuators = the slots after it). -/
def haKeyFor (numSensors numActuators : Nat) (allActuators : Bool) (slot : Nat) :
    Option String :=
  if allActuators then some ("actuator_" ++ toString (slot - 1))
  else if slot ≤ numSensors then some ("analog_" ++ toString (slot - 1))
  else if slot = numSensors + 1 then some "battery"
  else if slot ≤ numSensors + 1 + numActuators then
    some ("actuator_" ++ toString (slot - numSensors - 2))
  else none

/-- The key/value contribution of one slot entry: skipped entirely when its
sample sequence is empty or its slot has no key. -/
def haEntry (numSensors numActuators : Nat) (allActuators : Bool)
    (e : SensorEntry) : Option (String × ℚ) :=
  match e.lastValue with
  | none => none
  | some v => (haKeyFor numSensors numActuators allActuators e.slot).map (fun k => (k, v))

/-- Modelled from the spec: `helpers.update_data_to_ha_dict`
(`vegehub/helpers.py`, absent from src/).  The result mapping is modelled as
an association list in device order; a missing or empty `sensors` sequence,
or a payload whose every slot is skipped, yields the empty (falsy)
mapping. -/
def update_data_to_ha_dict (data : UpdatePayload) (numSensors numActuators : Nat)
    (allActuators : Bool) : List (String × ℚ) :=
  match data.sensors with
  | none => []
  | some entries => entries.filterMap (haEntry numSensors numActuators allActuators)

/-- The 7-slot payload of `src/tests/test_helpers.py` (`UPDATE_DATA`): four
analog channels, the battery channel in slot 5, and two actuator channels in
slots 6 and 7. -/
def testPayload7 : UpdatePayload :=
  { mac := "7C9EBD4B49D8"
    sensors := some
      [ { slot := 1, samples := [{ v := 1.5 }] }
      , { slot := 2, samples := [{ v := 1.45599997 }] }
      , { slot := 3, samples := [{ v := 1.330000043 }] }
      , { slot := 4, samples := [{ v := 0.075999998 }] }
      , { slot := 5, samples := [{ v := 9.314800262 }] }
      , { slot := 6, samples := [{ v := 1 }] }
      , { slot := 7, samples := [{ v := 0 }] } ] }

/-- Claim C6 counterexample: on the repository's own 7-slot reference
payload, `update_data_to_ha_dict(payload, 4, 2, false)` maps slot 6 (value
1) to `actuator_0` and slot 7 (value 0) to `actuator_1` — not slots 5–6 as
the claim states (slot 5's value 9.314800262 goes to `battery` alone, with
no analog key) — so the claim's mapping, which would give `actuator_0` the
slot-5 value 9.314800262 and `actuator_1` the slot-6 value 1, is false on
this input; the battery value is slot 5's, not a re-exposure of one of the
analog slots 1–4 (slot 4's value is 0.075999998). -/
theorem C6_slot_partition_counterexample :
    (update_data_to_ha_dict testPayload7 4 2 false).lookup "actuator_0" = some 1 ∧
    (update_data_to_ha_dict testPayload7 4 2 false).lookup "actuator_1" = some 0 ∧
    (update_data_to_ha_dict testPayload7 4 2 false).lookup "battery" =
      some 9.314800262 ∧
    (update_data_to_ha_dict testPayload7 4 2 false).lookup "analog_4" = none ∧
    some (1 : ℚ) ≠ some (9.314800262 : ℚ) ∧
    some (0 : ℚ) ≠ some (1 : ℚ) ∧
    some (9.314800262 : ℚ) ≠ some (0.075999998 : ℚ) := by
  refine ⟨by rfl, by rfl, by rfl, by rfl, ?_, ?_, ?_⟩ <;>
    simp <;> norm_num

/-- Claim C6, amended: for `update_data_to_ha_dict(payload, 4, 2, false)` on
a 7-slot payload, slots 1–4 map to keys analog_0..analog_3, slot 5 — the
sensor slot one past the analog channels, the battery channel — maps to the
key battery, and slots 6–7 map to actuator_0..actuator_1, each value being
that slot's last sample value. -/
theorem C6_ha_dict_slot_partition (mac : String) (s1 s2 s3 s4 s5 s6 s7 : List Sample)
    (v1 v2 v3 v4 v5 v6 v7 : ℚ)
    (h1 : s1.getLast?.map Sample.v = some v1)
    (h2 : s2.getLast?.map Sample.v = some v2)
    (h3 : s3.getLast?.map Sample.v = some v3)
    (h4 : s4.getLast?.map Sample.v = some v4)
    (h5 : s5.getLast?.map Sample.v = some v5)
    (h6 : s6.getLast?.map Sample.v = some v6)
    (h7 : s7.getLast?.map Sample.v = some v7) :
    update_data_to_ha_dict
        { mac := mac
          sensors := some
            [ { slot := 1, samples := s1 }, { slot := 2, samples := s2 }
            , { slot := 3, samples := s3 }, { slot := 4, samples := s4 }
            , { slot := 5, samples := s5 }, { slot := 6, samples := s6 }
            , { slot := 7, samples := s7 } ] } 4 2 false =
      [("analog_0", v1), ("analog_1", v2), ("analog_2", v3), ("analog_3", v4),
       ("battery", v5), ("actuator_0", v6), ("actuator_1", v7)] := by
  simp only [update_data_to_ha_dict, List.filterMap_cons, List.filterMap_nil,
    haEntry, SensorEntry.lastValue, h1, h2, h3, h4, h5, h6, h7, haKeyFor]
  norm_num
  exact ⟨by rfl, by rfl, by rfl, by rfl, by rfl, by rfl⟩

theorem C6_ha_dict_slot_partition_witness :
    update_data_to_ha_dict
        { mac := "7C9EBD4B49D8"
          sensors := some
            [ { slot := 1, samples := [{ v := 1.5 }] }
            , { slot := 2, samples := [{ v := 1.45599997 }] }
            , { slot := 3, samples := [{ v := 1.330000043 }] }
            , { slot := 4, samples := [{ v := 0.075999998 }] }
            , { slot := 5, samples := [{ v := 9.314800262 }] }
            , { slot := 6, samples := [{ v := 1 }] }
            , { slot := 7, samples := [{ v := 0 }] } ] } 4 2 false =
      [("analog_0", 1.5), ("analog_1", 1.45599997), ("analog_2", 1.330000043),
       ("analog_3", 0.075999998), ("battery", 9.314800262), ("actuator_0", 1),
       ("actuator_1", 0)] :=
  C6_ha_dict_slot_partition "7C9EBD4B49D8" _ _ _ _ _ _ _
    1.5 1.45599997 1.330000043 0.075999998 9.314800262 1 0
    rfl rfl rfl rfl rfl rfl rfl

/-- A transport that fails its first two attempts and succeeds afterwards,
used to witness claim C1 at a concrete input. -/
def demoTransport : Nat → AttemptOutcome := fun n =>
  if n < 2 then AttemptOutcome.failure "connection refused" else AttemptOutcome.success "ok"

/-- Claim C1 counterexample: against the concrete transport that fails its
first two attempts and would succeed on the third, the executor called with
retries=1 makes two attempts, not exactly one as the claim states — the
repository's own tests (`test_set_actuator_fail`, `test_actuator_states_fail`)
require a retries=1 call to consume two mocked failures. -/
theorem C1_one_attempt_counterexample :
    (executeWithRetry demoTransport 1).attempts = 2 ∧
    (executeWithRetry demoTransport 1).attempts ≠ 1 ∧
    (executeWithRetry demoTransport 1).result =
      Except.error (VegeError.connection "connection refused") ∧
    (executeWithRetry demoTransport 3).result = Except.ok "ok" :=
  ⟨by rfl, by decide, by rfl, by rfl⟩

theorem C1_retry_budget_plus_one_witness :
    (executeWithRetry demoTransport 1).attempts = 2 ∧
    (executeWithRetry demoTransport 1).result =
      Except.error (VegeError.connection "connection refused") ∧
    (executeWithRetry demoTransport 3).attempts = 3 ∧
    (executeWithRetry demoTransport 3).result = Except.ok "ok" ∧
    (∀ t2 : Nat → AttemptOutcome,
      (executeWithRetry t2 0).attempts = 1 ∧
      ((executeWithRetry t2 1).attempts = 1 ∨ (executeWithRetry t2 1).attempts = 2)) :=
  C1_retry_budget_plus_one demoTransport "connection refused" "connection refused" "ok"
    rfl rfl rfl

end VegeHub
